import Mathlib

/-
Verification of the api-tester command-line HTTP load generator
(src/main.rs) against its natural-language specification.

The embedding below translates the source into Lean:
  * the mutable locals of main that the argument scan updates become the
    structure Config, with the initial values of lines 76 to 82;
  * the while loop over the argument vector (lines 84 to 119) becomes
    scanArgs, a function into Except Panic Config, where Panic models the
    three abnormal-termination modes of the Rust code: a failed integer
    parse from expect, an out-of-bounds vector index, and an integer
    division by zero;
  * the reqwest ClientBuilder configuration (lines 121 to 140) becomes
    buildClient into the record ClientConfig;
  * fetch_data (lines 25 to 52) becomes a pure function from an external
    network environment (Net) to the list of response times the worker
    pushes into the shared latency log, and the spawn loop (lines 147 to
    156) becomes spawnWorkers;
  * the summary computation (lines 160 to 170) is modelled over the
    rationals; 64-bit float division is modelled by f64Div, whose result
    for a zero divisor is none, standing for the non-finite f64 values
    (NaN or an infinity) that f64 division by zero produces instead of a
    trap.
-/

/-- Abnormal-termination modes of the Rust program: a failed integer parse
raised by expect, an out-of-bounds vector index, and an integer division by
zero (Rust panics on a zero divisor for usize). -/
inductive Panic where
  | parseFail (msg : String)
  | indexOutOfBounds
  | divByZero
  deriving DecidableEq

/-- Mutable locals of main (lines 76 to 82) that the argument scan updates.
Durations are kept as integral milliseconds, exactly the u64 values passed to
Duration.from_millis in the source. -/
structure Config where
  total_calls : Nat
  num_threads : Nat
  sleep_time : Nat
  request_timeout : Nat
  connect_timeout : Nat
  reuse_connects : Bool
  keep_connects_open : Bool
  deriving DecidableEq

/-- Initial values of the locals of main, lines 76 to 82. -/
def initialConfig : Config :=
  { total_calls := 10000
    num_threads := 12
    sleep_time := 0
    request_timeout := 10000
    connect_timeout := 30000
    reuse_connects := false
    keep_connects_open := false }

/-- Rust unsigned integer parsing, as used by the five numeric flag arms
(str::parse into usize or u64, both 64-bit): an optional leading plus sign,
then one or more ASCII decimal digits, rejected on overflow past 2 ^ 64. -/
def parseUsize (s : String) : Option Nat :=
  let chars := s.toList
  let digits := if chars.headD ' ' = '+' then chars.tail else chars
  if digits = [] then none
  else if digits.all Char.isDigit then
    let v := digits.foldl (fun acc c => acc * 10 + (c.toNat - 48)) 0
    if v < 2 ^ 64 then some v else none
  else none

/-- Lines printed by print_help (lines 8 to 23), in order. -/
def helpLines : List String :=
  [ "Usage:"
  , "  api-tester [URL] [arguments]"
  , "Required arguments:"
  , "  [URL]                   - Server URL."
  , "Optional Arguments:"
  , "  -totalCalls [value]     - Total number of calls across all threads. Default is 10000."
  , "  -numThreads [value]     - Number of threads. Default is 12."
  , "  -sleepTime [value]      - Sleep time in milliseconds between calls within a thread. Default is 0."
  , "  -requestTimeOut [value] - HTTP request timeout in milliseconds. Default is 10000."
  , "  -connectTimeOut [value] - HTTP request timeout in milliseconds. Default is 20000."
  , "  -reuseConnects          - Add the request 'Connection: keep-alive' header."
  , "  -keepConnectsOpen       - Force a new connection with every request (not advised)."
  , "Help:"
  , "  -? or --help - Display this help message."
  ]

/-- Model of the Rust idiom s.to_lowercase().starts_with(p) for an ASCII
pattern p: lower-case the characters of s and test whether the characters
of p are a prefix.  Char.toLower agrees with Rust lowercasing on the ASCII
range, which is all the prefix tests http and https need. -/
def lowerStartsWith (s p : String) : Bool :=
  p.toList.isPrefixOf (s.toList.map Char.toLower)

/-- The five recognized flags that consume a following integer value. -/
def numericFlags : List String :=
  ["-totalCalls", "-numThreads", "-sleepTime", "-requestTimeOut", "-connectTimeOut"]

/-- Decides membership in numericFlags. -/
def isNumFlag (s : String) : Bool := numericFlags.contains s

/-- All seven recognized flag tokens of the scan loop. -/
def isFlagToken (s : String) : Bool :=
  isNumFlag s || s = "-reuseConnects" || s = "-keepConnectsOpen"

/-- The argument scan loop of main (lines 84 to 119), expressed over the
suffix of the argument vector from index 2 on.  Each numeric arm reads the
following token (an out-of-bounds index if there is none) and parses it (a
panic from expect on a parse failure); boolean arms and unrecognized tokens
advance by one. -/
def scanArgs : List String → Config → Except Panic Config
  | [], cfg => Except.ok cfg
  | arg :: rest, cfg =>
    if arg = "-totalCalls" then
      match rest with
      | [] => Except.error Panic.indexOutOfBounds
      | v :: rest2 =>
        match parseUsize v with
        | none => Except.error (Panic.parseFail "Invalid integer for totalCalls")
        | some n => scanArgs rest2 { cfg with total_calls := n }
    else if arg = "-numThreads" then
      match rest with
      | [] => Except.error Panic.indexOutOfBounds
      | v :: rest2 =>
        match parseUsize v with
        | none => Except.error (Panic.parseFail "Invalid integer for numThreads")
        | some n => scanArgs rest2 { cfg with num_threads := n }
    else if arg = "-sleepTime" then
      match rest with
      | [] => Except.error Panic.indexOutOfBounds
      | v :: rest2 =>
        match parseUsize v with
        | none => Except.error (Panic.parseFail "Invalid integer for sleepTime")
        | some n => scanArgs rest2 { cfg with sleep_time := n }
    else if arg = "-requestTimeOut" then
      match rest with
      | [] => Except.error Panic.indexOutOfBounds
      | v :: rest2 =>
        match parseUsize v with
        | none => Except.error (Panic.parseFail "Invalid integer for requestTimeOut")
        | some n => scanArgs rest2 { cfg with request_timeout := n }
    else if arg = "-connectTimeOut" then
      match rest with
      | [] => Except.error Panic.indexOutOfBounds
      | v :: rest2 =>
        match parseUsize v with
        | none => Except.error (Panic.parseFail "Invalid integer for connectTimeOut")
        | some n => scanArgs rest2 { cfg with connect_timeout := n }
    else if arg = "-reuseConnects" then
      scanArgs rest { cfg with reuse_connects := true }
    else if arg = "-keepConnectsOpen" then
      scanArgs rest { cfg with keep_connects_open := true }
    else
      scanArgs rest cfg

/-- Per-worker call share computed inside the spawn loop (line 148): the
floor of totalCalls over numThreads, plus one for the first
totalCalls mod numThreads workers. -/
def num_calls (total_calls num_threads i : Nat) : Nat :=
  total_calls / num_threads + if i < total_calls % num_threads then 1 else 0

/-- External environment of one run: the measured elapsed milliseconds and
the HTTP outcome (error description or status line) of call j of worker i,
and the wall-clock seconds measured from line 145 to line 160 around the
worker pool. -/
structure Net where
  latency : Nat → Nat → ℚ
  result : Nat → Nat → Except String String
  totalTime : ℚ

/-- The body of fetch_data (lines 25 to 52) as the list of response times
the worker appends to the shared log: both the success arm and the failure
arm of the match fall through to the same push of response_time (line 48).
Reading the response body when keep_connects_open is false does not change
the log, so that flag does not affect the result. -/
def fetch_data (net : Net) (keep_connects_open : Bool)
    (thread_id num_calls : Nat) : List ℚ :=
  (List.range num_calls).map (fun i =>
    let response_time := net.latency thread_id i
    match net.result thread_id i with
    | Except.ok _status => response_time
    | Except.error _err => response_time)

/-- The spawn loop (lines 147 to 156).  Rust usize division and remainder
panic on a zero divisor, and line 148 evaluates them once per loop
iteration, so the divByZero arm is reachable only when the loop body runs
at least once with num_threads zero, which an empty range rules out. -/
def spawnWorkers (net : Net) (cfg : Config) : Except Panic (List (List ℚ)) :=
  (List.range cfg.num_threads).mapM (fun i =>
    if cfg.num_threads = 0 then Except.error Panic.divByZero
    else Except.ok (fetch_data net cfg.keep_connects_open i
      (num_calls cfg.total_calls cfg.num_threads i)))

/-- Settings accumulated on the reqwest ClientBuilder (lines 121 to 140).
The default_headers field models the header map attached to every request
the built client issues, which is the reqwest semantics of default
headers. -/
structure ClientConfig where
  timeout : Nat
  connect_timeout : Nat
  pool_max_idle_per_host : Nat
  danger_accept_invalid_certs : Bool
  default_headers : List (String × String)
  deriving DecidableEq

/-- Client construction, lines 121 to 140 of main. -/
def buildClient (url : String) (cfg : Config) : ClientConfig :=
  let base : ClientConfig :=
    { timeout := cfg.request_timeout
      connect_timeout := cfg.connect_timeout
      pool_max_idle_per_host := cfg.num_threads * 10
      danger_accept_invalid_certs := lowerStartsWith url "https"
      default_headers := [] }
  if cfg.reuse_connects then
    { base with default_headers := [("Connection", "keep-alive")] }
  else
    { base with
        default_headers := [("Connection", "close")]
        pool_max_idle_per_host := 0 }

/-- Model of 64-bit float division over the rationals: a zero divisor gives
none, standing for the non-finite value (NaN for a zero numerator, an
infinity otherwise) that f64 division by zero yields instead of a trap. -/
def f64Div (a b : ℚ) : Option ℚ := if b = 0 then none else some (a / b)

/-- Line 166: the reported average is the sum of all recorded response
times divided by the length of the log. -/
def average_response_time (response_times : List ℚ) : Option ℚ :=
  f64Div response_times.sum (response_times.length : ℚ)

/-- Line 163: total_calls as f64 divided by the measured total time. -/
def requests_per_second (total_calls : Nat) (total_time : ℚ) : Option ℚ :=
  f64Div (total_calls : ℚ) total_time

/-- The three summary quantities printed on lines 168 to 170. -/
structure Report where
  total_time : ℚ
  average_response_time : Option ℚ
  requests_per_second : Option ℚ
  deriving DecidableEq

/-- Overall result of one process run. -/
inductive Outcome where
  | noArgs
  | helpShown
  | invalidUrl (url : String)
  | panicked (p : Panic)
  | completed (cfg : Config) (client : ClientConfig)
      (response_times : List ℚ) (report : Report)
  deriving DecidableEq

/-- The control flow of main (lines 54 to 175) over the full argument
vector; args includes the program name at index 0, as env::args does. -/
def run (net : Net) (args : List String) : Outcome :=
  if args.length < 2 then Outcome.noArgs
  else if args.contains "-?" || args.contains "--help" then Outcome.helpShown
  else
    let url := args.getD 1 ""
    if !(lowerStartsWith url "http") then Outcome.invalidUrl url
    else
      match scanArgs (args.drop 2) initialConfig with
      | Except.error p => Outcome.panicked p
      | Except.ok cfg =>
        let client := buildClient url cfg
        match spawnWorkers net cfg with
        | Except.error p => Outcome.panicked p
        | Except.ok worker_logs =>
          let response_times := worker_logs.flatten
          Outcome.completed cfg client response_times
            { total_time := net.totalTime
              average_response_time := average_response_time response_times
              requests_per_second := requests_per_second cfg.total_calls net.totalTime }

/-- Process exit: the early-return and completion paths return Ok from main
(exit status zero); a panic terminates the process abnormally. -/
def Outcome.exitCode : Outcome → Option Nat
  | Outcome.panicked _ => none
  | _ => some 0

/-- Number of HTTP requests the run issued: one per recorded response time;
every other path stops before any request is sent. -/
def Outcome.networkCalls : Outcome → Nat
  | Outcome.completed _ _ response_times _ => response_times.length
  | _ => 0

/-- Standard-output text of the three early-exit paths (lines 58 to 74);
none for the paths that go on to issue requests, whose per-call and summary
lines are modelled by the log and the Report instead. -/
def Outcome.earlyExitStdout : Outcome → Option (List String)
  | Outcome.noArgs => some ("Error: No command line argument provided." :: helpLines)
  | Outcome.helpShown => some helpLines
  | Outcome.invalidUrl url =>
      some (("Error: \"" ++ url ++ "\" is not a valid URL") :: helpLines)
  | _ => none

/-- True when the run ended in the panic raised by a failed expect on an
integer parse inside the argument scan. -/
def Outcome.isParseFailPanic : Outcome → Bool
  | Outcome.panicked (Panic.parseFail _) => true
  | _ => false

/-- True when the run ended in one of the two panics the argument scan can
raise: a failed integer parse or an out-of-bounds index. -/
def Outcome.isScanPanic : Outcome → Bool
  | Outcome.panicked (Panic.parseFail _) => true
  | Outcome.panicked Panic.indexOutOfBounds => true
  | _ => false

set_option maxRecDepth 8000

/-- A concrete environment used to instantiate theorems on closed inputs:
every call takes zero milliseconds and succeeds, and the measured total
time is one second. -/
def netZero : Net :=
  { latency := fun _ _ => 0, result := fun _ _ => Except.ok "200 OK", totalTime := 1 }

/-- Summing the per-worker shares over a range: each of k workers gets q,
and the first min r k of them get one more. -/
theorem sum_shares_list (q r : ℕ) :
    ∀ k : ℕ, ((List.range k).map (fun i => q + if i < r then 1 else 0)).sum
      = k * q + min r k := by
  intro k
  induction k with
  | zero => simp
  | succ k ih =>
      rw [List.range_succ, List.map_append, List.sum_append, ih]
      simp only [List.map_cons, List.map_nil, List.sum_cons, List.sum_nil,
        Nat.succ_eq_add_one, Nat.add_zero]
      rcases Nat.lt_or_ge k r with h | h
      · rw [Nat.min_eq_right h.le, Nat.min_eq_right h, if_pos h]
        try simp only [Nat.succ_eq_add_one]
        ring
      · rw [Nat.min_eq_left h, Nat.min_eq_left (h.trans (Nat.le_succ k)),
          if_neg (Nat.not_lt.2 h)]
        try simp only [Nat.succ_eq_add_one]
        ring

/-- Finset form of sum_shares_list. -/
theorem sum_shares_finset (q r : ℕ) :
    ∀ k : ℕ, (∑ i ∈ Finset.range k, (q + if i < r then 1 else 0)) = k * q + min r k := by
  intro k
  induction k with
  | zero => simp
  | succ k ih =>
      rw [Finset.sum_range_succ, ih]
      rcases Nat.lt_or_ge k r with h | h
      · rw [Nat.min_eq_right h.le, Nat.min_eq_right h, if_pos h]
        try simp only [Nat.succ_eq_add_one]
        ring
      · rw [Nat.min_eq_left h, Nat.min_eq_left (h.trans (Nat.le_succ k)),
          if_neg (Nat.not_lt.2 h)]
        try simp only [Nat.succ_eq_add_one]
        ring

/-- For a positive worker count the shares of line 148 add up to the total
call count. -/
theorem num_calls_list_sum (t n : ℕ) (h : 0 < n) :
    ((List.range n).map (fun i => num_calls t n i)).sum = t := by
  unfold num_calls
  rw [sum_shares_list (t / n) (t % n) n, Nat.min_eq_left (Nat.mod_lt t h).le]
  exact Nat.div_add_mod t n

/-- Each worker pushes exactly one entry per assigned call. -/
theorem fetch_data_length (net : Net) (b : Bool) (i m : ℕ) :
    (fetch_data net b i m).length = m := by
  unfold fetch_data
  rw [List.length_map, List.length_range]

/-- Mapping a function that always returns ok through mapM returns ok of
the mapped list. -/
theorem mapM_ok_of_ok {α β : Type} (g : α → β) :
    ∀ l : List α, List.mapM (fun a => (Except.ok (g a) : Except Panic β)) l
      = Except.ok (l.map g) := by
  intro l
  induction l with
  | nil => rfl
  | cons a l ih => rw [List.mapM_cons, ih]; rfl

/-- With a positive worker count the spawn loop completes and produces one
latency list per worker. -/
theorem spawnWorkers_pos (net : Net) (cfg : Config) (h : cfg.num_threads ≠ 0) :
    spawnWorkers net cfg = Except.ok ((List.range cfg.num_threads).map (fun i =>
      fetch_data net cfg.keep_connects_open i
        (num_calls cfg.total_calls cfg.num_threads i))) := by
  unfold spawnWorkers
  simp only [if_neg h]
  exact mapM_ok_of_ok _ _

/-- Inversion of run on the completed path: the configuration came from the
argument scan, the client from buildClient on the URL argument, the log is
the concatenation of the per-worker logs, and the report fields are exactly
the aggregate computations of lines 160 to 166. -/
theorem run_completed_elim {net : Net} {args : List String} {cfg : Config}
    {client : ClientConfig} {log : List ℚ} {report : Report}
    (h : run net args = Outcome.completed cfg client log report) :
    ∃ worker_logs : List (List ℚ),
      scanArgs (args.drop 2) initialConfig = Except.ok cfg ∧
      spawnWorkers net cfg = Except.ok worker_logs ∧
      log = worker_logs.flatten ∧
      client = buildClient (args.getD 1 "") cfg ∧
      report = { total_time := net.totalTime
                 average_response_time := average_response_time log
                 requests_per_second := requests_per_second cfg.total_calls net.totalTime } := by
  unfold run at h
  split at h
  · simp at h
  · split at h
    · simp at h
    · split at h
      · simp only [] at h
        split at h
        · simp at h
        · simp at h
      · split at h
        · simp only [] at h
          split at h
          · simp at h
          · simp at h
        · rename_i x1 cfg1 heq1 x2 logs1 heq2
          simp only [] at h
          split at h
          · simp at h
          · simp only [Outcome.completed.injEq] at h
            obtain ⟨h1, h2, h3, h4⟩ := h
            subst h1
            subst h3
            exact ⟨logs1, heq1, heq2, rfl, h2.symm, h4.symm⟩

/-- When the early-exit guards all fail and the argument scan raises a
panic, the run ends in that panic, before any client is built or request
issued. -/
theorem run_eq_scan_error {net : Net} {args : List String} {p : Panic}
    (h2 : ¬ args.length < 2)
    (hq : args.contains "-?" = false) (hh : args.contains "--help" = false)
    (hu : lowerStartsWith (args.getD 1 "") "http" = true)
    (hs : scanArgs (args.drop 2) initialConfig = Except.error p) :
    run net args = Outcome.panicked p := by
  unfold run
  rw [if_neg h2, hq, hh, hs]
  simp
  simpa using hu

/-- Unfolding of membership in the numeric flag list. -/
theorem isNumFlag_cases {a : String} (ha : isNumFlag a = true) :
    a = "-totalCalls" ∨ a = "-numThreads" ∨ a = "-sleepTime" ∨
    a = "-requestTimeOut" ∨ a = "-connectTimeOut" := by
  simpa [isNumFlag, numericFlags] using ha

/-- A numeric flag token itself never parses as an unsigned integer,
since it starts with a hyphen. -/
theorem numFlag_no_parse {f : String} (hf : isNumFlag f = true) : parseUsize f = none := by
  rcases isNumFlag_cases hf with rfl | rfl | rfl | rfl | rfl <;> rfl

/-- A numeric flag with no following token makes the scan read one index
past the end of the argument vector. -/
theorem scanArgs_num_nil {a : String} (ha : isNumFlag a = true) (cfg : Config) :
    scanArgs [a] cfg = Except.error Panic.indexOutOfBounds := by
  rcases isNumFlag_cases ha with rfl | rfl | rfl | rfl | rfl <;> rfl

/-- A numeric flag whose following token fails to parse stops the scan
with the expect panic of the corresponding arm. -/
theorem scanArgs_num_bad {a v : String} (ha : isNumFlag a = true)
    (hv : parseUsize v = none) (rest : List String) (cfg : Config) :
    ∃ m, scanArgs (a :: v :: rest) cfg = Except.error (Panic.parseFail m) := by
  rcases isNumFlag_cases ha with rfl | rfl | rfl | rfl | rfl
  · exact ⟨"Invalid integer for totalCalls", by simp [scanArgs, hv]⟩
  · exact ⟨"Invalid integer for numThreads", by simp [scanArgs, hv]⟩
  · exact ⟨"Invalid integer for sleepTime", by simp [scanArgs, hv]⟩
  · exact ⟨"Invalid integer for requestTimeOut", by simp [scanArgs, hv]⟩
  · exact ⟨"Invalid integer for connectTimeOut", by simp [scanArgs, hv]⟩

/-- A numeric flag whose following token parses consumes two tokens and
continues with the corresponding field updated. -/
theorem scanArgs_num_good {a v : String} (ha : isNumFlag a = true) {n : ℕ}
    (hv : parseUsize v = some n) (rest : List String) (cfg : Config) :
    ∃ cfg2, scanArgs (a :: v :: rest) cfg = scanArgs rest cfg2 ∧
      (¬ a = "-connectTimeOut" → cfg2.connect_timeout = cfg.connect_timeout) := by
  rcases isNumFlag_cases ha with rfl | rfl | rfl | rfl | rfl
  · exact ⟨{ cfg with total_calls := n }, by simp [scanArgs, hv], fun _ => rfl⟩
  · exact ⟨{ cfg with num_threads := n }, by simp [scanArgs, hv], fun _ => rfl⟩
  · exact ⟨{ cfg with sleep_time := n }, by simp [scanArgs, hv], fun _ => rfl⟩
  · exact ⟨{ cfg with request_timeout := n }, by simp [scanArgs, hv], fun _ => rfl⟩
  · exact ⟨{ cfg with connect_timeout := n }, by simp [scanArgs, hv],
      fun hc => absurd rfl hc⟩

/-- Any token other than the five numeric flags consumes exactly one token
and continues with some updated configuration. -/
theorem scanArgs_step_nonnum {a : String} (ha : isNumFlag a = false)
    (rest : List String) (cfg : Config) :
    ∃ cfg2, scanArgs (a :: rest) cfg = scanArgs rest cfg2 ∧
      cfg2.connect_timeout = cfg.connect_timeout := by
  have h1 : ¬ a = "-totalCalls" := by rintro rfl; simp [isNumFlag, numericFlags] at ha
  have h2 : ¬ a = "-numThreads" := by rintro rfl; simp [isNumFlag, numericFlags] at ha
  have h3 : ¬ a = "-sleepTime" := by rintro rfl; simp [isNumFlag, numericFlags] at ha
  have h4 : ¬ a = "-requestTimeOut" := by rintro rfl; simp [isNumFlag, numericFlags] at ha
  have h5 : ¬ a = "-connectTimeOut" := by rintro rfl; simp [isNumFlag, numericFlags] at ha
  by_cases hr : a = "-reuseConnects"
  · subst hr
    exact ⟨{ cfg with reuse_connects := true }, by rw [scanArgs.eq_def]; simp, rfl⟩
  by_cases hk : a = "-keepConnectsOpen"
  · subst hk
    exact ⟨{ cfg with keep_connects_open := true }, by rw [scanArgs.eq_def]; simp, rfl⟩
  exact ⟨cfg, by rw [scanArgs.eq_def]; simp [h1, h2, h3, h4, h5, hr, hk], rfl⟩

/-- A token that is not one of the seven recognized flags is skipped with
no error and no configuration change. -/
theorem scanArgs_skip {u : String} (hu : isFlagToken u = false)
    (rest : List String) (cfg : Config) :
    scanArgs (u :: rest) cfg = scanArgs rest cfg := by
  have ha : isNumFlag u = false := by
    cases hn : isNumFlag u
    · rfl
    · simp [isFlagToken, hn] at hu
  have h1 : ¬ u = "-totalCalls" := by rintro rfl; simp [isNumFlag, numericFlags] at ha
  have h2 : ¬ u = "-numThreads" := by rintro rfl; simp [isNumFlag, numericFlags] at ha
  have h3 : ¬ u = "-sleepTime" := by rintro rfl; simp [isNumFlag, numericFlags] at ha
  have h4 : ¬ u = "-requestTimeOut" := by rintro rfl; simp [isNumFlag, numericFlags] at ha
  have h5 : ¬ u = "-connectTimeOut" := by rintro rfl; simp [isNumFlag, numericFlags] at ha
  have hr : ¬ u = "-reuseConnects" := by rintro rfl; simp [isFlagToken] at hu
  have hk : ¬ u = "-keepConnectsOpen" := by rintro rfl; simp [isFlagToken] at hu
  rw [scanArgs.eq_def]
  simp [h1, h2, h3, h4, h5, hr, hk]

/-- If anywhere in the scanned region a recognized numeric flag is
followed by a token that fails integer parsing, the scan stops with an
expect panic: the scanner either lands on that flag and fails to parse the
follower, or the flag itself was consumed as the value of the preceding
numeric flag and fails to parse, or an earlier pair already failed. -/
theorem scanArgs_err_of_badPair :
    ∀ (N : ℕ) (L : List String), L.length ≤ N → ∀ (cfg : Config) (j : ℕ) (f v : String),
      L[j]? = some f → isNumFlag f = true → L[j + 1]? = some v → parseUsize v = none →
      ∃ m, scanArgs L cfg = Except.error (Panic.parseFail m) := by
  intro N
  induction N with
  | zero =>
      intro L hL cfg j f v hj hf hv hp
      have hL0 : L = [] := List.length_eq_zero.mp (Nat.le_zero.mp hL)
      subst hL0
      simp at hj
  | succ N ih =>
      intro L hL cfg j f v hj hf hv hp
      cases L with
      | nil => simp at hj
      | cons a rest =>
        cases ha : isNumFlag a with
        | true =>
          cases rest with
          | nil =>
              cases j with
              | zero => simp at hv
              | succ k => simp at hj
          | cons v2 rest2 =>
            cases hpv : parseUsize v2 with
            | none => exact scanArgs_num_bad ha hpv rest2 cfg
            | some n =>
              obtain ⟨cfg2, hstep, hpres⟩ := scanArgs_num_good ha hpv rest2 cfg
              rw [hstep]
              cases j with
              | zero =>
                  simp only [List.getElem?_cons_succ, List.getElem?_cons_zero,
                    Option.some.injEq] at hj hv
                  subst hv
                  rw [hp] at hpv
                  simp at hpv
              | succ k =>
                cases k with
                | zero =>
                    simp only [List.getElem?_cons_succ, List.getElem?_cons_zero,
                      Option.some.injEq] at hj
                    subst hj
                    rw [numFlag_no_parse hf] at hpv
                    simp at hpv
                | succ k2 =>
                    simp only [List.getElem?_cons_succ] at hj hv
                    exact ih rest2 (by simp at hL; omega) cfg2 k2 f v hj hf hv hp
        | false =>
          obtain ⟨cfg2, hstep, hpres⟩ := scanArgs_step_nonnum ha rest cfg
          rw [hstep]
          cases j with
          | zero =>
              simp only [List.getElem?_cons_zero, Option.some.injEq] at hj
              subst hj
              rw [hf] at ha
              simp at ha
          | succ k =>
              simp only [List.getElem?_cons_succ] at hj hv
              exact ih rest (by simp at hL; omega) cfg2 k f v hj hf hv hp

/-- If the final token of the scanned region is a recognized numeric flag,
the scan always panics: with the out-of-bounds read of the missing value
when the scanner lands on it, or with a parse failure when the final token
is consumed as the value of the preceding numeric flag. -/
theorem scanArgs_err_of_trailing :
    ∀ (N : ℕ) (L : List String), L.length ≤ N → ∀ (cfg : Config) (f : String),
      L.getLast? = some f → isNumFlag f = true →
      ∃ p, scanArgs L cfg = Except.error p ∧
        (p = Panic.indexOutOfBounds ∨ ∃ m, p = Panic.parseFail m) := by
  intro N
  induction N with
  | zero =>
      intro L hL cfg f hlast hf
      have hL0 : L = [] := List.length_eq_zero.mp (Nat.le_zero.mp hL)
      subst hL0
      simp at hlast
  | succ N ih =>
      intro L hL cfg f hlast hf
      cases L with
      | nil => simp at hlast
      | cons a rest =>
        cases ha : isNumFlag a with
        | true =>
          cases rest with
          | nil =>
              exact ⟨Panic.indexOutOfBounds, scanArgs_num_nil ha cfg, Or.inl rfl⟩
          | cons v2 rest2 =>
            cases hpv : parseUsize v2 with
            | none =>
                obtain ⟨m, hm⟩ := scanArgs_num_bad ha hpv rest2 cfg
                exact ⟨Panic.parseFail m, hm, Or.inr ⟨m, rfl⟩⟩
            | some n =>
              obtain ⟨cfg2, hstep, hpres⟩ := scanArgs_num_good ha hpv rest2 cfg
              rw [hstep]
              cases rest2 with
              | nil =>
                  rw [List.getLast?_cons_cons] at hlast
                  simp only [List.getLast?_singleton, Option.some.injEq] at hlast
                  subst hlast
                  rw [numFlag_no_parse hf] at hpv
                  simp at hpv
              | cons c rest3 =>
                  rw [List.getLast?_cons_cons] at hlast
                  exact ih (c :: rest3) (by simp at hL ⊢; omega) cfg2 f hlast hf
        | false =>
          obtain ⟨cfg2, hstep, hpres⟩ := scanArgs_step_nonnum ha rest cfg
          rw [hstep]
          cases rest with
          | nil =>
              simp only [List.getLast?_singleton, Option.some.injEq] at hlast
              subst hlast
              rw [hf] at ha
              simp at ha
          | cons c rest3 =>
              rw [List.getLast?_cons_cons] at hlast
              exact ih (c :: rest3) (by simp at hL ⊢; omega) cfg2 f hlast hf

/-- The last element of the suffix from index 2 is the last element of the
whole argument vector, when the suffix is nonempty. -/
theorem getLast_drop_two {l : List String} (h : ¬ l.drop 2 = []) :
    (l.drop 2).getLast? = l.getLast? := by
  conv_rhs => rw [← List.take_append_drop 2 l]
  rw [List.getLast?_append]
  cases hd : (l.drop 2).getLast? with
  | none => exact absurd (List.getLast?_eq_none_iff.mp hd) h
  | some x => rfl

/-- Both branches of the header configuration preserve the connect timeout
set on the builder on line 123. -/
theorem buildClient_connect_timeout (url : String) (cfg : Config) :
    (buildClient url cfg).connect_timeout = cfg.connect_timeout := by
  unfold buildClient
  by_cases hr : cfg.reuse_connects = true <;> simp [hr]

/-- A scan that never sees the -connectTimeOut token leaves the connect
timeout at its incoming value. -/
theorem scanArgs_preserves_connect :
    ∀ (N : ℕ) (L : List String), L.length ≤ N → ∀ (cfg cfg2 : Config),
      ¬ "-connectTimeOut" ∈ L → scanArgs L cfg = Except.ok cfg2 →
      cfg2.connect_timeout = cfg.connect_timeout := by
  intro N
  induction N with
  | zero =>
      intro L hL cfg cfg2 hmem hscan
      have hL0 : L = [] := List.length_eq_zero.mp (Nat.le_zero.mp hL)
      subst hL0
      simp [scanArgs] at hscan
      subst hscan
      rfl
  | succ N ih =>
      intro L hL cfg cfg2 hmem hscan
      cases L with
      | nil =>
          simp [scanArgs] at hscan
          subst hscan
          rfl
      | cons a rest =>
        have hmema : ¬ a = "-connectTimeOut" := by
          rintro rfl
          exact hmem (List.mem_cons_self _ _)
        have hmemr : ¬ "-connectTimeOut" ∈ rest := fun hm => hmem (List.mem_cons_of_mem a hm)
        cases ha : isNumFlag a with
        | true =>
          cases rest with
          | nil =>
              rw [scanArgs_num_nil ha] at hscan
              simp at hscan
          | cons v2 rest2 =>
            have hmemr2 : ¬ "-connectTimeOut" ∈ rest2 := fun hm =>
              hmemr (List.mem_cons_of_mem v2 hm)
            cases hpv : parseUsize v2 with
            | none =>
                obtain ⟨m, hm⟩ := scanArgs_num_bad ha hpv rest2 cfg
                rw [hm] at hscan
                simp at hscan
            | some n =>
                obtain ⟨cfgm, hstep, hpres⟩ := scanArgs_num_good ha hpv rest2 cfg
                rw [hstep] at hscan
                rw [ih rest2 (by simp at hL; omega) cfgm cfg2 hmemr2 hscan, hpres hmema]
        | false =>
            obtain ⟨cfgm, hstep, hpres⟩ := scanArgs_step_nonnum ha rest cfg
            rw [hstep] at hscan
            rw [ih rest (by simp at hL; omega) cfgm cfg2 hmemr hscan, hpres]

/-- Demonstration argument vector: four calls spread over three workers. -/
def demoArgs : List String :=
  ["api-tester", "http://localhost", "-totalCalls", "4", "-numThreads", "3"]

/-- The configuration the demonstration arguments produce. -/
def demoCfg : Config := { initialConfig with total_calls := 4, num_threads := 3 }

/-- The client the demonstration run builds. -/
def demoClient : ClientConfig := buildClient "http://localhost" demoCfg

/-- The latency log of the demonstration run under netZero: four entries of
zero milliseconds (worker 0 performs two calls, workers 1 and 2 one each). -/
def demoLog : List ℚ := [0, 0, 0, 0]

/-- The report of the demonstration run. -/
def demoReport : Report :=
  { total_time := 1
    average_response_time := average_response_time demoLog
    requests_per_second := requests_per_second 4 1 }

/-- The demonstration run evaluates to a completed outcome with the
expected configuration, client, log and report. -/
theorem run_demo :
    run netZero demoArgs = Outcome.completed demoCfg demoClient demoLog demoReport := rfl

/-- C1: for every totalCalls and every numThreads greater than zero, worker
i is assigned floor totalCalls over numThreads calls plus one extra exactly
when i is below totalCalls mod numThreads, the assigned calls over all
numThreads workers sum to exactly totalCalls, and with totalCalls 4 and
numThreads 3 worker 0 gets 2 calls while workers 1 and 2 get 1 each. -/
theorem C1_worker_share (t n : ℕ) (h : 0 < n) :
    (∀ i, (num_calls t n i = t / n + 1 ↔ i < t % n) ∧
          (num_calls t n i = t / n ↔ ¬ i < t % n)) ∧
    (∑ i ∈ Finset.range n, num_calls t n i) = t ∧
    num_calls 4 3 0 = 2 ∧ num_calls 4 3 1 = 1 ∧ num_calls 4 3 2 = 1 := by
  refine ⟨?_, ?_, by decide, by decide, by decide⟩
  · intro i
    unfold num_calls
    generalize t / n = a
    generalize t % n = b
    by_cases hi : i < b <;> simp [hi]
  · unfold num_calls
    rw [sum_shares_finset (t / n) (t % n) n, Nat.min_eq_left (Nat.mod_lt t h).le]
    exact Nat.div_add_mod t n

/-- Witness for C1 at totalCalls 4 and numThreads 3. -/
theorem C1_worker_share_witness :
    (∑ i ∈ Finset.range 3, num_calls 4 3 i) = 4 ∧
    num_calls 4 3 0 = 2 ∧ num_calls 4 3 1 = 1 ∧ num_calls 4 3 2 = 1 :=
  ⟨(C1_worker_share 4 3 (by decide)).2.1, (C1_worker_share 4 3 (by decide)).2.2⟩

/-- C2: every run that completes with a positive worker count leaves
exactly totalCalls entries in the shared latency log, one appended per call
on the success branch and on the failure branch alike. -/
theorem C2_latency_log_length {net : Net} {args : List String} {cfg : Config}
    {client : ClientConfig} {log : List ℚ} {report : Report}
    (h : run net args = Outcome.completed cfg client log report)
    (hpos : 0 < cfg.num_threads) :
    log.length = cfg.total_calls := by
  obtain ⟨worker_logs, _, hspawn, hlog, _, _⟩ := run_completed_elim h
  rw [spawnWorkers_pos net cfg (Nat.pos_iff_ne_zero.mp hpos)] at hspawn
  simp only [Except.ok.injEq] at hspawn
  subst hspawn
  subst hlog
  rw [List.length_flatten, List.map_map]
  simp only [Function.comp_def, fetch_data_length]
  exact num_calls_list_sum cfg.total_calls cfg.num_threads hpos

/-- Witness for C2 on the demonstration run. -/
theorem C2_latency_log_length_witness : demoLog.length = demoCfg.total_calls :=
  C2_latency_log_length run_demo (by decide)

/-- C3: on any completed run with a nonempty log and a nonzero measured
time, the reported average response time is the arithmetic mean of every
latency log entry, failures included since both branches append to the
same log, and the reported requests per second is totalCalls divided by
the elapsed seconds measured around the worker pool. -/
theorem C3_report_formulas {net : Net} {args : List String} {cfg : Config}
    {client : ClientConfig} {log : List ℚ} {report : Report}
    (h : run net args = Outcome.completed cfg client log report)
    (hlog : log ≠ []) (ht : net.totalTime ≠ 0) :
    report.average_response_time = some (log.sum / (log.length : ℚ)) ∧
    report.requests_per_second = some ((cfg.total_calls : ℚ) / net.totalTime) := by
  obtain ⟨worker_logs, _, _, _, _, hrep⟩ := run_completed_elim h
  subst hrep
  constructor
  · have hne : (log.length : ℚ) ≠ 0 := by
      rw [Nat.cast_ne_zero, Ne, List.length_eq_zero]
      exact hlog
    show average_response_time log = _
    unfold average_response_time f64Div
    rw [if_neg hne]
  · show requests_per_second cfg.total_calls net.totalTime = _
    unfold requests_per_second f64Div
    rw [if_neg ht]

/-- Witness for C3 on the demonstration run. -/
theorem C3_report_formulas_witness :
    demoReport.average_response_time = some (demoLog.sum / (demoLog.length : ℚ)) ∧
    demoReport.requests_per_second = some ((demoCfg.total_calls : ℚ) / netZero.totalTime) :=
  C3_report_formulas run_demo (by decide) (by decide)

/-- C4: with the reuseConnects flag the client is built with the default
header Connection keep-alive, which reqwest then attaches to every issued
request; without the flag the default header is Connection close and the
idle connection pool capacity is forced to zero. -/
theorem C4_connection_headers (url : String) (cfg : Config) :
    (cfg.reuse_connects = true →
      (buildClient url cfg).default_headers = [("Connection", "keep-alive")]) ∧
    (cfg.reuse_connects = false →
      (buildClient url cfg).default_headers = [("Connection", "close")] ∧
      (buildClient url cfg).pool_max_idle_per_host = 0) := by
  unfold buildClient
  constructor
  · intro hr
    rw [hr]
    simp
  · intro hr
    rw [hr]
    simp

/-- Configuration with connection reuse requested. -/
def cfgReuse : Config := { initialConfig with reuse_connects := true }

/-- Witness for C4 at a concrete URL and both flag values. -/
theorem C4_connection_headers_witness :
    (buildClient "http://localhost" cfgReuse).default_headers
      = [("Connection", "keep-alive")] ∧
    (buildClient "http://localhost" initialConfig).default_headers
      = [("Connection", "close")] ∧
    (buildClient "http://localhost" initialConfig).pool_max_idle_per_host = 0 :=
  ⟨(C4_connection_headers "http://localhost" cfgReuse).1 rfl,
   (C4_connection_headers "http://localhost" initialConfig).2 rfl⟩

/-- C5 counterexample: this argument list contains the recognized numeric
flag -totalCalls followed by the non-integer token abc, yet the process
terminates normally with exit status zero, because a help token anywhere in
the argument vector returns before the scan runs. -/
theorem C5_counterexample :
    run netZero ["api-tester", "http://localhost", "--help", "-totalCalls", "abc"] =
      Outcome.helpShown ∧
    (run netZero
        ["api-tester", "http://localhost", "--help", "-totalCalls", "abc"]).exitCode
      = some 0 := ⟨rfl, rfl⟩

/-- C5 amended: for every argument list that reaches the argument scan (at
least two entries, no -? or --help token, second entry starting with http
case-insensitively) in which a recognized numeric flag inside the scanned
region is followed by a token that does not parse as an integer, the
process panics through the failed expect during the scan, before any
client is built and with no request issued; and any token other than the
seven recognized flags is skipped silently with no error and no
configuration change. -/
theorem C5_parse_failure_fatal :
    (∀ (net : Net) (args : List String) (j : ℕ) (f v : String),
      ¬ args.length < 2 →
      args.contains "-?" = false → args.contains "--help" = false →
      lowerStartsWith (args.getD 1 "") "http" = true →
      (args.drop 2)[j]? = some f → isNumFlag f = true →
      (args.drop 2)[j + 1]? = some v → parseUsize v = none →
      (run net args).isParseFailPanic = true ∧ (run net args).networkCalls = 0 ∧
      (run net args).exitCode = none) ∧
    (∀ (u : String) (rest : List String) (cfg : Config),
      isFlagToken u = false → scanArgs (u :: rest) cfg = scanArgs rest cfg) := by
  constructor
  · intro net args j f v h2 hq hh hu hj hf hv hp
    obtain ⟨m, hm⟩ := scanArgs_err_of_badPair (args.drop 2).length (args.drop 2) le_rfl
      initialConfig j f v hj hf hv hp
    rw [run_eq_scan_error h2 hq hh hu hm]
    exact ⟨rfl, rfl, rfl⟩
  · exact fun u rest cfg hu => scanArgs_skip hu rest cfg

/-- Witness for the amended C5: a bad value for -sleepTime panics the scan,
and an unrecognized token is skipped. -/
theorem C5_parse_failure_fatal_witness :
    ((run netZero ["api-tester", "http://localhost", "-sleepTime", "abc"]).isParseFailPanic
        = true ∧
     (run netZero ["api-tester", "http://localhost", "-sleepTime", "abc"]).networkCalls = 0 ∧
     (run netZero ["api-tester", "http://localhost", "-sleepTime", "abc"]).exitCode = none) ∧
    scanArgs ["bogus"] initialConfig = scanArgs [] initialConfig :=
  ⟨C5_parse_failure_fatal.1 netZero ["api-tester", "http://localhost", "-sleepTime", "abc"]
      0 "-sleepTime" "abc" (by decide) (by decide) (by decide) (by decide) (by decide)
      (by decide) (by decide) (by decide),
   C5_parse_failure_fatal.2 "bogus" [] initialConfig (by decide)⟩

/-- C6: the three early-exit paths print to standard output, return the
normal zero exit status of the Ok return from main, and perform zero
network activity: fewer than two argv entries, a -? or --help token
anywhere, or a first positional argument that does not start with http
case-insensitively, such as ftp://example.com. -/
theorem C6_early_exits (net : Net) (args : List String) :
    (args.length < 2 →
      run net args = Outcome.noArgs ∧
      Outcome.noArgs.exitCode = some 0 ∧ Outcome.noArgs.networkCalls = 0 ∧
      Outcome.noArgs.earlyExitStdout ≠ none) ∧
    (¬ args.length < 2 →
      (args.contains "-?" = true ∨ args.contains "--help" = true) →
      run net args = Outcome.helpShown ∧
      Outcome.helpShown.exitCode = some 0 ∧ Outcome.helpShown.networkCalls = 0 ∧
      Outcome.helpShown.earlyExitStdout ≠ none) ∧
    (¬ args.length < 2 →
      args.contains "-?" = false → args.contains "--help" = false →
      lowerStartsWith (args.getD 1 "") "http" = false →
      run net args = Outcome.invalidUrl (args.getD 1 "") ∧
      (Outcome.invalidUrl (args.getD 1 "")).exitCode = some 0 ∧
      (Outcome.invalidUrl (args.getD 1 "")).networkCalls = 0 ∧
      (Outcome.invalidUrl (args.getD 1 "")).earlyExitStdout ≠ none) := by
  refine ⟨?_, ?_, ?_⟩
  · intro h
    refine ⟨?_, rfl, rfl, by simp [Outcome.earlyExitStdout]⟩
    unfold run
    rw [if_pos h]
  · intro h2 hh
    refine ⟨?_, rfl, rfl, by simp [Outcome.earlyExitStdout]⟩
    unfold run
    rw [if_neg h2]
    rcases hh with hh | hh
    · rw [hh, Bool.true_or, if_pos rfl]
    · rw [hh, Bool.or_true, if_pos rfl]
  · intro h2 hq hh hu
    refine ⟨?_, rfl, rfl, by simp [Outcome.earlyExitStdout]⟩
    unfold run
    rw [if_neg h2, hq, hh, Bool.or_self, if_neg (by decide)]
    simp only []
    rw [hu]
    rfl

/-- Witness for C6 at the ftp target from the specification. -/
theorem C6_early_exits_witness :
    run netZero ["api-tester", "ftp://example.com"] =
      Outcome.invalidUrl "ftp://example.com" ∧
    (Outcome.invalidUrl "ftp://example.com").exitCode = some 0 ∧
    (Outcome.invalidUrl "ftp://example.com").networkCalls = 0 ∧
    (Outcome.invalidUrl "ftp://example.com").earlyExitStdout ≠ none :=
  (C6_early_exits netZero ["api-tester", "ftp://example.com"]).2.2
    (by decide) (by decide) (by decide) (by decide)

/-- Arguments requesting zero total calls. -/
def argsZeroCalls : List String := ["api-tester", "http://localhost", "-totalCalls", "0"]

/-- The configuration argsZeroCalls produces. -/
def cfgZeroCalls : Config := { initialConfig with total_calls := 0 }

/-- The report of the zero-call run: the empty-log average is the NaN of
the division zero over zero. -/
def reportZeroCalls : Report :=
  { total_time := 1
    average_response_time := average_response_time []
    requests_per_second := requests_per_second 0 1 }

/-- C7: the aggregator is a total computation with no failure mode other
than the zero divisor of an empty log: on the empty log, which a completed
run produces exactly when totalCalls is zero, the unguarded division
yields the non-finite NaN value, modelled as none; on any nonempty log it
yields the finite arithmetic mean. -/
theorem C7_aggregator_division (log : List ℚ) :
    (log = [] → average_response_time log = none) ∧
    (log ≠ [] → average_response_time log = some (log.sum / (log.length : ℚ))) ∧
    (∀ (net : Net) (args : List String) (cfg : Config) (client : ClientConfig)
        (report : Report),
      run net args = Outcome.completed cfg client log report → cfg.total_calls = 0 →
      log = [] ∧ report.average_response_time = none) := by
  refine ⟨?_, ?_, ?_⟩
  · rintro rfl
    rfl
  · intro hlog
    have hne : (log.length : ℚ) ≠ 0 := by
      rw [Nat.cast_ne_zero, Ne, List.length_eq_zero]
      exact hlog
    unfold average_response_time f64Div
    rw [if_neg hne]
  · intro net args cfg client report hrun h0
    obtain ⟨worker_logs, _, hspawn, hlog, _, hrep⟩ := run_completed_elim hrun
    have hcalls : ∀ i, num_calls cfg.total_calls cfg.num_threads i = 0 := by
      intro i
      unfold num_calls
      rw [h0]
      simp
    have hwl : log = [] := by
      rcases Nat.eq_zero_or_pos cfg.num_threads with hn | hn
      · unfold spawnWorkers at hspawn
        rw [hn] at hspawn
        simp only [List.range_zero, List.mapM_nil] at hspawn
        simp only [pure] at hspawn
        simp only [Except.pure, Except.ok.injEq] at hspawn
        subst hspawn
        simpa using hlog
      · rw [spawnWorkers_pos net cfg (Nat.pos_iff_ne_zero.mp hn)] at hspawn
        simp only [Except.ok.injEq] at hspawn
        subst hspawn
        rw [hlog]
        simp [fetch_data, hcalls]
    refine ⟨hwl, ?_⟩
    subst hrep
    show average_response_time log = none
    rw [hwl]
    rfl

/-- Witness for C7: the empty log yields the NaN marker, a singleton log
yields its mean, and the zero-call run produces the empty log and the NaN
average. -/
theorem C7_aggregator_division_witness :
    average_response_time ([] : List ℚ) = none ∧
    average_response_time [(5 : ℚ)] =
      some (List.sum [(5 : ℚ)] / (List.length [(5 : ℚ)] : ℚ)) ∧
    (([] : List ℚ) = [] ∧ reportZeroCalls.average_response_time = none) :=
  ⟨(C7_aggregator_division []).1 rfl,
   (C7_aggregator_division [(5 : ℚ)]).2.1 (by decide),
   (C7_aggregator_division []).2.2 netZero argsZeroCalls cfgZeroCalls
     (buildClient "http://localhost" cfgZeroCalls) reportZeroCalls rfl rfl⟩

/-- C8: with no -connectTimeOut flag the connect timeout used to build the
client is the 30000 millisecond initial value, while line 18 of the help
text advertises 20000; the remaining defaults are totalCalls 10000,
numThreads 12, sleepTime 0 and requestTimeOut 10000. -/
theorem C8_defaults :
    initialConfig.total_calls = 10000 ∧ initialConfig.num_threads = 12 ∧
    initialConfig.sleep_time = 0 ∧ initialConfig.request_timeout = 10000 ∧
    initialConfig.connect_timeout = 30000 ∧
    helpLines.getD 9 "" =
      "  -connectTimeOut [value] - HTTP request timeout in milliseconds. Default is 20000." ∧
    (∀ (url : String) (flags : List String) (cfg : Config),
      ¬ "-connectTimeOut" ∈ flags → scanArgs flags initialConfig = Except.ok cfg →
      (buildClient url cfg).connect_timeout = 30000) := by
  refine ⟨rfl, rfl, rfl, rfl, rfl, rfl, ?_⟩
  intro url flags cfg hmem hscan
  rw [buildClient_connect_timeout,
    scanArgs_preserves_connect flags.length flags le_rfl initialConfig cfg hmem hscan]
  rfl

/-- Witness for C8: a scan that sets only the request timeout leaves the
built client with the 30000 millisecond connect timeout. -/
theorem C8_defaults_witness :
    (buildClient "http://localhost"
        { initialConfig with request_timeout := 5 }).connect_timeout = 30000 :=
  C8_defaults.2.2.2.2.2.2 "http://localhost" ["-requestTimeOut", "5"]
    { initialConfig with request_timeout := 5 } (by decide) rfl

/-- C9 counterexample: at the exact input of the claim the program does
not terminate abnormally: it completes with exit status zero and zero
network calls, because the spawn loop runs zero iterations and the
division by the zero worker count is never evaluated. -/
theorem C9_counterexample :
    (run netZero ["api-tester", "http://localhost", "-numThreads", "0"]).exitCode
      = some 0 ∧
    (run netZero ["api-tester", "http://localhost", "-numThreads", "0"]).networkCalls
      = 0 := ⟨rfl, rfl⟩

/-- C9 amended: -numThreads 0 parses as a valid integer and no check ever
rejects a zero worker count; but the worker-spawn loop executes zero
iterations, so the division and remainder by zero on line 148 are never
evaluated: instead of panicking, the program spawns no workers, performs
zero calls, completes normally with exit status zero, and reports the NaN
average of the empty-log division. -/
theorem C9_zero_threads_completes (net : Net) :
    scanArgs ["-numThreads", "0"] initialConfig =
      Except.ok { initialConfig with num_threads := 0 } ∧
    run net ["api-tester", "http://localhost", "-numThreads", "0"] =
      Outcome.completed { initialConfig with num_threads := 0 }
        (buildClient "http://localhost" { initialConfig with num_threads := 0 })
        []
        { total_time := net.totalTime
          average_response_time := none
          requests_per_second := requests_per_second 10000 net.totalTime } ∧
    (run net ["api-tester", "http://localhost", "-numThreads", "0"]).exitCode = some 0 ∧
    (run net ["api-tester", "http://localhost", "-numThreads", "0"]).networkCalls = 0 :=
  ⟨rfl, rfl, rfl, rfl⟩

/-- C10 counterexample: with the numeric flag -totalCalls as the final
token, consumed as the value of the preceding -sleepTime flag, the process
panics through the failed integer parse, not through an out-of-bounds
index: the scan never reads past the end of this argument vector. -/
theorem C10_counterexample :
    run netZero ["api-tester", "http://localhost", "-sleepTime", "-totalCalls"] =
      Outcome.panicked (Panic.parseFail "Invalid integer for sleepTime") ∧
    run netZero ["api-tester", "http://localhost", "-sleepTime", "-totalCalls"] ≠
      Outcome.panicked Panic.indexOutOfBounds := ⟨rfl, by decide⟩

/-- C10 amended: for every argument list that reaches the argument scan
(at least three entries, no -? or --help token, second entry starting with
http case-insensitively) whose final token is a recognized numeric flag,
the process panics before any client is built: with the out-of-bounds
index one past the end when the scanner lands on that token, or with the
integer parse failure of the flag token itself when it is consumed as the
value of the preceding numeric flag. -/
theorem C10_trailing_flag_panics (net : Net) (args : List String) (f : String)
    (h3 : 3 ≤ args.length)
    (hq : args.contains "-?" = false) (hh : args.contains "--help" = false)
    (hu : lowerStartsWith (args.getD 1 "") "http" = true)
    (hlast : args.getLast? = some f) (hf : isNumFlag f = true) :
    (run net args).isScanPanic = true ∧ (run net args).networkCalls = 0 ∧
    (run net args).exitCode = none := by
  have hlen : ¬ args.length < 2 := by omega
  have hne : ¬ args.drop 2 = [] := by
    rw [List.drop_eq_nil_iff]
    omega
  have hdrop : (args.drop 2).getLast? = some f := by
    rw [getLast_drop_two hne]
    exact hlast
  obtain ⟨p, herr, hkind⟩ := scanArgs_err_of_trailing (args.drop 2).length (args.drop 2)
    le_rfl initialConfig f hdrop hf
  rw [run_eq_scan_error hlen hq hh hu herr]
  rcases hkind with rfl | ⟨m, rfl⟩
  · exact ⟨rfl, rfl, rfl⟩
  · exact ⟨rfl, rfl, rfl⟩

/-- Witness for the amended C10: a trailing -totalCalls with a valid URL
panics with the out-of-bounds index. -/
theorem C10_trailing_flag_panics_witness :
    (run netZero ["api-tester", "http://localhost", "-totalCalls"]).isScanPanic = true ∧
    (run netZero ["api-tester", "http://localhost", "-totalCalls"]).networkCalls = 0 ∧
    (run netZero ["api-tester", "http://localhost", "-totalCalls"]).exitCode = none :=
  C10_trailing_flag_panics netZero ["api-tester", "http://localhost", "-totalCalls"]
    "-totalCalls" (by decide) (by decide) (by decide) (by decide) (by decide) (by decide)
